import Mathlib

/-!
Shallow embedding of `rplugin/python3/markdown_composer/__init__.py`, the
Neovim remote plugin that bridges the editor to the external markdown
renderer, together with proofs about its behaviour.

The plugin object's mutable fields (`server`, `client`, `client_process`,
`listening_port`) become a record `PluginState`; observable side effects
(processes spawned via `subprocess.Popen`, sockets bound, frames written with
`socket.send`) are recorded in ghost log fields of the same record.  Neovim
variable values are modelled by `VimValue` with Python truthiness and
Python `==` semantics where the source relies on them.  MessagePack byte
strings are modelled as `List Nat` with one entry per byte.
-/

namespace MarkdownComposer

/-- Python primitive values that a Neovim variable can hold. -/
inductive VimValue where
  | vint (n : Int)
  | vbool (b : Bool)
  | vstr (s : String)
deriving DecidableEq

/-- Python truthiness of a value: 0, False and the empty string are falsy. -/
def pyTruthy : VimValue → Bool
  | .vint n => n != 0
  | .vbool b => b
  | .vstr s => s.length != 0

/-- Python truthiness of an optional value; `None` is falsy. -/
def optTruthy : Option VimValue → Bool
  | none => false
  | some v => pyTruthy v

/-- Python equality test `v == 1`.  In Python `True == 1` holds, while any
string or any other integer compares unequal to `1`. -/
def pyEqOne : VimValue → Bool
  | .vint n => n == 1
  | .vbool b => b
  | .vstr _ => false

/-- Python `'%s' % v` formatting of a value. -/
def pyFormat : VimValue → String
  | .vint n => toString n
  | .vbool b => cond b ("True") ("False")
  | .vstr s => s

/-- Inputs the plugin reads from the editor host: the variable table
(`vim.vars`) and the current buffer as a list of lines. -/
structure VimEnv where
  vars : String → Option VimValue
  currentBuffer : List String

/-- UTF-8 encoding of a single code point as a list of bytes. -/
def utf8EncodeNat (n : Nat) : List Nat :=
  if n < 128 then [n]
  else if n < 2048 then [192 + n / 64, 128 + n % 64]
  else if n < 65536 then [224 + n / 4096, 128 + n / 64 % 64, 128 + n % 64]
  else [240 + n / 262144, 128 + n / 4096 % 64, 128 + n / 64 % 64, 128 + n % 64]

/-- UTF-8 encoding of one character. -/
def utf8EncodeChar (c : Char) : List Nat := utf8EncodeNat c.toNat

/-- UTF-8 encoding of a character sequence. -/
def utf8Encode (cs : List Char) : List Nat :=
  cs.foldr (fun c acc => utf8EncodeChar c ++ acc) []

/-- UTF-8 decoding of one code point: from the lead byte and the remaining
stream, the code point and the unconsumed bytes, or `none` on a malformed
prefix. -/
def utf8DecodeOne (b : Nat) (rest : List Nat) : Option (Nat × List Nat) :=
  if b < 128 then some (b, rest)
  else if b < 192 then none
  else if b < 224 then
    match rest with
    | b2 :: rest2 =>
      if 128 ≤ b2 && b2 < 192 then some ((b - 192) * 64 + (b2 - 128), rest2) else none
    | [] => none
  else if b < 240 then
    match rest with
    | b2 :: b3 :: rest3 =>
      if (128 ≤ b2 && b2 < 192) && (128 ≤ b3 && b3 < 192) then
        some ((b - 224) * 4096 + (b2 - 128) * 64 + (b3 - 128), rest3)
      else none
    | _ => none
  else
    match rest with
    | b2 :: b3 :: b4 :: rest4 =>
      if ((128 ≤ b2 && b2 < 192) && (128 ≤ b3 && b3 < 192)) && (128 ≤ b4 && b4 < 192) then
        some ((b - 240) * 262144 + (b2 - 128) * 4096 + (b3 - 128) * 64 + (b4 - 128), rest4)
      else none
    | _ => none

/-- UTF-8 decoding of a full byte sequence back to characters. -/
def utf8Decode : List Nat → Option (List Char)
  | [] => some []
  | b :: rest =>
    match h : utf8DecodeOne b rest with
    | some p => (utf8Decode p.2).map (fun cs => Char.ofNat p.1 :: cs)
    | none => none
termination_by l => l.length
decreasing_by
  have hlen : p.2.length ≤ rest.length := by
    obtain ⟨n, r2⟩ := p
    unfold utf8DecodeOne at h
    repeat' split at h
    all_goals simp_all
    all_goals omega
  simp only [List.length_cons]
  omega

/-- The UTF-8 byte representation of a string's characters. -/
def strBytes (s : String) : List Nat := utf8Encode s.data

/-- MessagePack encoding of one string: a fixstr, str 8, str 16 or str 32
header depending on the UTF-8 byte length, followed by the UTF-8 payload.
`none` when the string exceeds the str 32 limit. -/
def packStr (s : String) : Option (List Nat) :=
  if (strBytes s).length < 32 then some ((160 + (strBytes s).length) :: strBytes s)
  else if (strBytes s).length < 256 then some (217 :: (strBytes s).length :: strBytes s)
  else if (strBytes s).length < 65536 then
    some (218 :: (strBytes s).length / 256 :: (strBytes s).length % 256 :: strBytes s)
  else if (strBytes s).length < 4294967296 then
    some (219 :: (strBytes s).length / 16777216 :: (strBytes s).length / 65536 % 256 ::
      (strBytes s).length / 256 % 256 :: (strBytes s).length % 256 :: strBytes s)
  else none

/-- MessagePack encoding of the elements of a string list, concatenated. -/
def packItems : List String → Option (List Nat)
  | [] => some []
  | s :: rest =>
    match packStr s, packItems rest with
    | some b, some bs => some (b ++ bs)
    | _, _ => none

/-- MessagePack array header for a given element count. -/
def arrayHeader (n : Nat) : Option (List Nat) :=
  if n < 16 then some [144 + n]
  else if n < 65536 then some [220, n / 256, n % 256]
  else if n < 4294967296 then
    some [221, n / 16777216, n / 65536 % 256, n / 256 % 256, n % 256]
  else none

/-- Model of `msgpack.packb` on a Python list of strings, the only shape the
plugin ever serializes: an array header followed by the packed elements. -/
def packb (items : List String) : Option (List Nat) :=
  match arrayHeader items.length, packItems items with
  | some h, some body => some (h ++ body)
  | _, _ => none

/-- Modelled from the spec: reading one string payload of a given byte length
from the stream.  The program itself never decodes (`decode` is not required
by the core); the spec asks for a decoder for test purposes, so this is the
reader inverse of the framing that `packStr` writes. -/
def readPayload (len : Nat) (bs : List Nat) : Option (String × List Nat) :=
  if len ≤ bs.length then
    match utf8Decode (bs.take len) with
    | some cs => some (String.mk cs, bs.drop len)
    | none => none
  else none

/-- Modelled from the spec: reading one MessagePack-encoded string
(fixstr, str 8, str 16 or str 32) from the front of the stream. -/
def readStr : List Nat → Option (String × List Nat)
  | [] => none
  | b :: rest =>
    if 160 ≤ b && b < 192 then readPayload (b - 160) rest
    else if b == 217 then
      match rest with
      | n :: r => readPayload n r
      | [] => none
    else if b == 218 then
      match rest with
      | n1 :: n2 :: r => readPayload (n1 * 256 + n2) r
      | _ => none
    else if b == 219 then
      match rest with
      | n1 :: n2 :: n3 :: n4 :: r =>
        readPayload (n1 * 16777216 + n2 * 65536 + n3 * 256 + n4) r
      | _ => none
    else none

/-- Modelled from the spec: reading a given number of strings from the
stream. -/
def readItems : Nat → List Nat → Option (List String × List Nat)
  | 0, bs => some ([], bs)
  | n + 1, bs =>
    match readStr bs with
    | some (s, r) =>
      match readItems n r with
      | some (ss, r2) => some (s :: ss, r2)
      | none => none
    | none => none

/-- Modelled from the spec: `msgpack.unpackb` on a frame holding an array of
strings (fixarray, array 16 or array 32 header), requiring the whole input to
be consumed. -/
def unpackb (bs : List Nat) : Option (List String) :=
  match bs with
  | [] => none
  | b :: rest =>
    if 144 ≤ b && b < 160 then
      match readItems (b - 144) rest with
      | some (ss, []) => some ss
      | _ => none
    else if b == 220 then
      match rest with
      | n1 :: n2 :: r =>
        match readItems (n1 * 256 + n2) r with
        | some (ss, []) => some ss
        | _ => none
      | _ => none
    else if b == 221 then
      match rest with
      | n1 :: n2 :: n3 :: n4 :: r =>
        match readItems (n1 * 16777216 + n2 * 65536 + n3 * 256 + n4) r with
        | some (ss, []) => some ss
        | _ => none
      | _ => none
    else none

/-- One protocol frame: `encode(method, args)` is the byte encoding of the
array `[method] + args`, exactly as the plugin builds its messages. -/
def encode (method : String) (args : List String) : Option (List Nat) :=
  packb (method :: args)

/-- Modelled from the spec: the decoder for test purposes, recovering the
method name and argument list from a frame. -/
def decode (bs : List Nat) : Option (String × List String) :=
  match unpackb bs with
  | some (m :: args) => some (m, args)
  | _ => none

/-- A connection accepted from the renderer (`self.server.accept()`).  The
`broken` flag records whether a `send` on this socket raises (broken pipe or
refused connection), which is decided by the environment, not the plugin. -/
structure ClientConn where
  id : Nat
  broken : Bool
deriving DecidableEq

/-- The listening socket the plugin binds (`socket.socket(...)`, bound to an
ephemeral port chosen by the operating system). -/
structure ServerSocket where
  port : Nat
deriving DecidableEq

/-- Python exceptions the embedded operations can raise. -/
inductive PyError where
  | attributeError
  | brokenPipeError
  | packError
deriving DecidableEq

/-- The `MarkdownPlugin` object's fields, plus ghost logs of its observable
side effects: `spawned` records the argv of every `subprocess.Popen` call,
`socketsOpened` the port of every listening socket bound, and `sent` every
frame written to the transport with `send`. -/
structure PluginState where
  server : Option ServerSocket
  client : Option ClientConn
  client_process : Option (List String)
  listening_port : Option Nat
  spawned : List (List String)
  socketsOpened : List Nat
  sent : List (List Nat)
deriving DecidableEq

/-- The state built by `__init__`: every field is `None`, no side effects. -/
def initialState : PluginState := ⟨none, none, none, none, [], [], []⟩

/-- Python `'\n'.join(lines)` on the buffer's lines. -/
def joinBuffer (lines : List String) : String := String.intercalate ("\n") lines

/-- `send_current_buffer`: returns immediately when `self.client is None`;
otherwise packs `['send_data', '\n'.join(buffer)]` and writes it to the
client socket.  The returned `Option PyError` is the exception propagating
out of the method, `none` when it returns normally; the state is the object
state afterwards (Python leaves the fields untouched when `send` raises). -/
def sendCurrentBuffer (env : VimEnv) (s : PluginState) : PluginState × Option PyError :=
  match s.client with
  | none => (s, none)
  | some c =>
    match packb [("send_data"), joinBuffer env.currentBuffer] with
    | none => (s, some .packError)
    | some msg =>
      if c.broken then (s, some .brokenPipeError)
      else ({ s with sent := s.sent ++ [msg] }, none)

/-- `open_browser`: packs `['open_browser']` and calls `self.client.send`
with no `None` guard, so when no connection exists the attribute access on
`None` raises `AttributeError`. -/
def openBrowser (s : PluginState) : PluginState × Option PyError :=
  match packb [("open_browser")] with
  | none => (s, some .packError)
  | some msg =>
    match s.client with
    | none => (s, some .attributeError)
    | some c =>
      if c.broken then (s, some .brokenPipeError)
      else ({ s with sent := s.sent ++ [msg] }, none)

/-- The `open_browser` configuration read in `start_client`:
`vim.vars.get('markdown_composer_open_browser', 1) == 1`. -/
def openBrowserFlag (v : Option VimValue) : Bool := pyEqOne (v.getD (.vint 1))

/-- The conditional flags appended to `args` in `launch_client_process`:
`--browser=<v>` when the browser variable is truthy, `--no-browser` when
auto-open is disabled, `--highlight-theme=<v>` when the theme variable is
truthy. -/
def clientFlags (browser : Option VimValue) (ob : Bool) (theme : Option VimValue) :
    List String :=
  (match browser with
   | some v => if pyTruthy v then [("--browser=") ++ pyFormat v] else []
   | none => [])
  ++ (if ob then [] else [("--no-browser")])
  ++ (match theme with
      | some v => if pyTruthy v then [("--highlight-theme=") ++ pyFormat v] else []
      | none => [])

/-- The full argv handed to `subprocess.Popen` in `launch_client_process`:
the base `cargo run --release --` invocation, the conditional flags, then
`str(self.listening_port)` and the snapshot of the buffer text. -/
def clientArgs (browser : Option VimValue) (ob : Bool) (theme : Option VimValue)
    (port : Nat) (buf : String) : List String :=
  [("cargo"), ("run"), ("--release"), ("--")] ++ clientFlags browser ob theme
    ++ [toString port, buf]

/-- `start_client`: returns at once when `self.server is not None`; otherwise
binds a fresh listening socket on the ephemeral `port` the operating system
hands out, records the port, snapshots the configuration and buffer, and
spawns the renderer with `clientArgs`.  The accept loop that later installs
`self.client` is modelled separately by `acceptLoop`. -/
def startClient (env : VimEnv) (port : Nat) (s : PluginState) :
    PluginState × Option PyError :=
  if s.server.isSome then (s, none)
  else
    let browser := env.vars ("markdown_composer_browser")
    let ob := openBrowserFlag (env.vars ("markdown_composer_open_browser"))
    let theme := env.vars ("markdown_composer_syntax_theme")
    let buf := joinBuffer env.currentBuffer
    let args := clientArgs browser ob theme port buf
    ({ s with
        server := some ⟨port⟩,
        listening_port := some port,
        client_process := some args,
        spawned := s.spawned ++ [args],
        socketsOpened := s.socketsOpened ++ [port] }, none)

/-- `should_autostart`:
`vim.vars.get('markdown_composer_autostart', True)` used for its truthiness. -/
def shouldAutostart (env : VimEnv) : Bool :=
  pyTruthy ((env.vars ("markdown_composer_autostart")).getD (.vbool true))

/-- One iteration of the accept loop `self.client, _ = self.server.accept()`:
the accepted connection replaces whatever connection was stored before. -/
def acceptStep (c : ClientConn) (s : PluginState) : PluginState :=
  { s with client := some c }

/-- The accept loop applied to the sequence of connections the renderer makes
over time (each reconnect is a further `accept`). -/
def acceptLoop (cs : List ClientConn) (s : PluginState) : PluginState :=
  cs.foldl (fun t c => acceptStep c t) s

/-- Editor lifecycle events delivered to the plugin.  `bufferTick` stands for
the `CursorHold,CursorHoldI,CursorMoved,CursorMovedI` autocommand on markdown
files; `dirChanged` stands for a directory/active-file change, for which the
plugin registers no handler at all. -/
inductive EditorEvent where
  | fileTypeMarkdown
  | bufferTick
  | dirChanged
  | cmdComposerOpen
  | cmdComposerUpdate
  | cmdComposerStart
  | cmdComposerPort
deriving DecidableEq

/-- Dispatch of one editor event to the handler the source registers for it.
`port` is the ephemeral port the operating system would hand a fresh bind.
`dirChanged` has no registered handler, so nothing runs; `ComposerPort` only
echoes `self.listening_port`, leaving the session state unchanged. -/
def handleEvent (env : VimEnv) (port : Nat) (e : EditorEvent) (s : PluginState) :
    PluginState × Option PyError :=
  match e with
  | .fileTypeMarkdown => if shouldAutostart env then startClient env port s else (s, none)
  | .bufferTick => sendCurrentBuffer env s
  | .dirChanged => (s, none)
  | .cmdComposerOpen => openBrowser s
  | .cmdComposerUpdate => sendCurrentBuffer env s
  | .cmdComposerStart => startClient env port s
  | .cmdComposerPort => (s, none)

/-- A command or autocommand registration made by the decorators in the
source, with its `sync` flag (`sync=True` means the editor blocks until the
handler returns; the default is asynchronous). -/
structure Registration where
  kind : String
  trigger : String
  sync : Bool
deriving DecidableEq

/-- The registrations the source declares, in order of appearance. -/
def registrations : List Registration :=
  [⟨("command"), ("ComposerOpen"), false⟩,
   ⟨("command"), ("ComposerUpdate"), true⟩,
   ⟨("command"), ("ComposerStart"), false⟩,
   ⟨("command"), ("ComposerPort"), false⟩,
   ⟨("autocmd"), ("FileType"), true⟩,
   ⟨("autocmd"), ("CursorHold,CursorHoldI,CursorMoved,CursorMovedI"), false⟩]

/-- A sequence of buffer-changed events: each one runs `send_current_buffer`
on the then-current buffer contents, collecting the exception (if any) each
call raises. -/
def sendMany (envs : List VimEnv) (s : PluginState) :
    PluginState × List (Option PyError) :=
  match envs with
  | [] => (s, [])
  | e :: rest =>
    let p := sendCurrentBuffer e s
    let q := sendMany rest p.1
    (q.1, p.2 :: q.2)

/-- A sequence of `start_client` calls, each with the configuration visible
at that moment and the ephemeral port the operating system would assign. -/
def startMany (calls : List (VimEnv × Nat)) (s : PluginState) : PluginState :=
  calls.foldl (fun t ep => (startClient ep.1 ep.2 t).1) s

/-- A concrete environment with no variables set and a two-line buffer, used
to instantiate universally quantified theorems. -/
def env0 : VimEnv := ⟨fun _ => none, [("hello"), ("world")]⟩

/-- A concrete session whose stored connection raises on `send` (the renderer
side of the socket is gone). -/
def brokenState : PluginState := { initialState with client := some ⟨0, true⟩ }

/-- A concrete session with an established, healthy transport connection. -/
def connState : PluginState :=
  { initialState with
      server := some ⟨4000⟩, listening_port := some 4000, client := some ⟨0, false⟩ }

/-- The configuration of the spec's worked example: browser `firefox`,
auto-open disabled, highlight theme `none` (the literal string), and a
one-line buffer. -/
def envFirefox : VimEnv :=
  ⟨fun k =>
    if k == ("markdown_composer_browser") then some (.vstr ("firefox"))
    else if k == ("markdown_composer_open_browser") then some (.vint 0)
    else if k == ("markdown_composer_syntax_theme") then some (.vstr ("none"))
    else none,
   [("# hello")]⟩

theorem sendCurrentBuffer_disconnected (env : VimEnv) (s : PluginState)
    (h : s.client = none) : sendCurrentBuffer env s = (s, none) := by
  simp [sendCurrentBuffer, h]

/-- C1: while no transport connection is established (`self.client is None`),
any sequence of buffer-changed sends writes nothing, raises nothing, and
leaves the whole session state (including every ghost log) unchanged — the
requests are neither buffered nor retried. -/
theorem buffer_send_disconnected_drops (envs : List VimEnv) (s : PluginState)
    (h : s.client = none) :
    sendMany envs s = (s, envs.map (fun _ => none)) := by
  induction envs with
  | nil => simp [sendMany]
  | cons e rest ih => simp [sendMany, sendCurrentBuffer_disconnected e s h, ih]

theorem buffer_send_disconnected_drops_witness :
    sendMany [env0, env0] initialState = (initialState, [none, none]) :=
  buffer_send_disconnected_drops [env0, env0] initialState rfl

theorem startClient_already_started (env : VimEnv) (port : Nat) (s : PluginState)
    (h : s.server.isSome = true) : startClient env port s = (s, none) := by
  simp [startClient, h]

theorem startMany_already_started (calls : List (VimEnv × Nat)) (s : PluginState)
    (h : s.server.isSome = true) : startMany calls s = s := by
  induction calls generalizing s with
  | nil => rfl
  | cons ep rest ih =>
    simp only [startMany, List.foldl_cons]
    rw [show (startClient ep.1 ep.2 s).1 = s from by rw [startClient_already_started _ _ _ h]]
    exact ih s h

/-- C2: a second (and any later) `start_client` call made while the session
is already started is a no-op: after the first call of an N-call sequence the
remaining calls change nothing, exactly one process is spawned — with the
argv built from the first call's configuration snapshot — exactly one
listening socket is bound, and the reported port stays that of the first
call. -/
theorem start_idempotent (e : VimEnv) (p : Nat) (rest : List (VimEnv × Nat))
    (s : PluginState) (h : s.server = none) :
    startMany ((e, p) :: rest) s = (startClient e p s).1 ∧
      (startClient e p s).1.spawned = s.spawned ++
        [clientArgs (e.vars ("markdown_composer_browser"))
          (openBrowserFlag (e.vars ("markdown_composer_open_browser")))
          (e.vars ("markdown_composer_syntax_theme")) p (joinBuffer e.currentBuffer)] ∧
      (startClient e p s).1.socketsOpened = s.socketsOpened ++ [p] ∧
      (startClient e p s).1.listening_port = some p := by
  have hns : s.server.isSome = false := by simp [h]
  have hstep : (startClient e p s).1.server.isSome = true := by
    simp [startClient, hns]
  refine ⟨?_, ?_, ?_, ?_⟩
  · simp only [startMany, List.foldl_cons]
    exact startMany_already_started rest _ hstep
  · simp [startClient, hns]
  · simp [startClient, hns]
  · simp [startClient, hns]

theorem start_idempotent_witness :
    startMany [(env0, 5), (env0, 6)] initialState = (startClient env0 5 initialState).1 ∧
      (startClient env0 5 initialState).1.spawned = initialState.spawned ++
        [clientArgs (env0.vars ("markdown_composer_browser"))
          (openBrowserFlag (env0.vars ("markdown_composer_open_browser")))
          (env0.vars ("markdown_composer_syntax_theme")) 5 (joinBuffer env0.currentBuffer)] ∧
      (startClient env0 5 initialState).1.socketsOpened =
        initialState.socketsOpened ++ [5] ∧
      (startClient env0 5 initialState).1.listening_port = some 5 :=
  start_idempotent env0 5 [(env0, 6)] initialState rfl

/-- C4 counterexample: at a session whose stored connection is broken, the
claimed behaviour "the error does not propagate out of the send operation"
is false — `send_current_buffer` raises the transport error to its caller,
because the source wraps `self.client.send(msg)` in no handler. -/
theorem send_failure_counterexample :
    (sendCurrentBuffer env0 brokenState).2 = some PyError.brokenPipeError := by
  decide

/-- C4 amended: a transport write failure during a send propagates out of
`send_current_buffer` as a raised exception (the operation installs no
handler), while the request is dropped and the session state is not torn
down — every stored handle and log is exactly as before the call. -/
theorem send_failure_escapes (env : VimEnv) (s : PluginState) (c : ClientConn)
    (h : s.client = some c) (hb : c.broken = true) :
    (sendCurrentBuffer env s).1 = s ∧ (sendCurrentBuffer env s).2 ≠ none := by
  cases hp : packb [("send_data"), joinBuffer env.currentBuffer] with
  | none => simp [sendCurrentBuffer, h, hp]
  | some msg => simp [sendCurrentBuffer, h, hp, hb]

theorem send_failure_escapes_witness :
    (sendCurrentBuffer env0 brokenState).1 = brokenState ∧
      (sendCurrentBuffer env0 brokenState).2 ≠ none :=
  send_failure_escapes env0 brokenState ⟨0, true⟩ rfl rfl

/-- C5: with no renderer ever started (no connection, no process),
`open_browser` raises `AttributeError` — the condition is surfaced to the
caller — whereas a buffer send at the same state is silently dropped. -/
theorem open_browser_surfaces_error (s : PluginState) (h1 : s.client = none)
    (h2 : s.client_process = none) :
    openBrowser s = (s, some PyError.attributeError) ∧
      (∀ env, sendCurrentBuffer env s = (s, none)) := by
  obtain ⟨m, hm⟩ : ∃ m, packb [("open_browser")] = some m := ⟨_, rfl⟩
  exact ⟨by simp [openBrowser, hm, h1], fun env => sendCurrentBuffer_disconnected env s h1⟩

theorem open_browser_surfaces_error_witness :
    openBrowser initialState = (initialState, some PyError.attributeError) ∧
      sendCurrentBuffer env0 initialState = (initialState, none) :=
  ⟨(open_browser_surfaces_error initialState rfl rfl).1,
   (open_browser_surfaces_error initialState rfl rfl).2 env0⟩

/-- C6 counterexample: at a concrete session with an established connection,
a directory-changed event writes nothing to the transport and changes
nothing — refuting the claim that the bridge sends `chdir(new_directory)`
when connected. -/
theorem dir_change_counterexample :
    handleEvent env0 4000 EditorEvent.dirChanged connState = (connState, none) ∧
      (handleEvent env0 4000 EditorEvent.dirChanged connState).1.sent = [] :=
  ⟨rfl, rfl⟩

/-- C6 amended: the plugin registers no handler for directory-change or
buffer-enter events — its only autocommands are `FileType` and the
`CursorHold` family — so a directory-changed event is a no-op in every state
and no `chdir` message is ever produced. -/
theorem dir_change_no_handler (env : VimEnv) (port : Nat) (s : PluginState) :
    handleEvent env port EditorEvent.dirChanged s = (s, none) ∧
      (registrations.all (fun r => r.kind != ("autocmd") ||
        (r.trigger == ("FileType") ||
          r.trigger == ("CursorHold,CursorHoldI,CursorMoved,CursorMovedI")))) = true :=
  ⟨rfl, by decide⟩

/-- C7: the session stores at most one transport connection, and each accept
of the loop `self.client, _ = self.server.accept()` replaces the stored
channel with the newly accepted connection: after any history of accepts
ending in `c`, the live connection is exactly `c`. -/
theorem accept_replaces_connection (s : PluginState) (cs : List ClientConn)
    (c : ClientConn) :
    (acceptLoop (cs ++ [c]) s).client = some c ∧
      acceptLoop (cs ++ [c]) s = acceptStep c (acceptLoop cs s) ∧
      (acceptLoop (cs ++ [c]) s).client.toList.length = 1 ∧
      (∀ t : PluginState, t.client.toList.length ≤ 1) := by
  refine ⟨?_, ?_, ?_, ?_⟩
  · simp [acceptLoop, List.foldl_append, acceptStep]
  · simp [acceptLoop, List.foldl_append]
  · simp [acceptLoop, List.foldl_append, acceptStep]
  · intro t
    cases t.client <;> simp [Option.toList]

theorem string_ne_of_get2 {a b : String} (h : a.data.get? 2 ≠ b.data.get? 2) : a ≠ b :=
  fun he => h (by rw [he])

theorem browser_get2 (s : String) : (("--browser=") ++ s).data.get? 2 = some 'b' := rfl

theorem theme_get2 (s : String) :
    (("--highlight-theme=") ++ s).data.get? 2 = some 'h' := rfl

theorem workdir_get2 (s : String) :
    (("--working-directory=") ++ s).data.get? 2 = some 'w' := rfl

theorem nobrowser_get2 : ("--no-browser" : String).data.get? 2 = some 'n' := rfl

theorem nobrowser_ne_browser (s : String) : ("--no-browser") ≠ ("--browser=") ++ s :=
  string_ne_of_get2 (by rw [nobrowser_get2, browser_get2]; decide)

theorem nobrowser_ne_theme (s : String) :
    ("--no-browser") ≠ ("--highlight-theme=") ++ s :=
  string_ne_of_get2 (by rw [nobrowser_get2, theme_get2]; decide)

theorem browser_ne_nobrowser (s : String) : ("--browser=") ++ s ≠ ("--no-browser") :=
  string_ne_of_get2 (by rw [nobrowser_get2, browser_get2]; decide)

theorem browser_ne_theme (s u : String) :
    ("--browser=") ++ s ≠ ("--highlight-theme=") ++ u :=
  string_ne_of_get2 (by rw [browser_get2, theme_get2]; decide)

theorem theme_ne_nobrowser (s : String) :
    ("--highlight-theme=") ++ s ≠ ("--no-browser") :=
  string_ne_of_get2 (by rw [nobrowser_get2, theme_get2]; decide)

theorem theme_ne_browser (s u : String) :
    ("--highlight-theme=") ++ s ≠ ("--browser=") ++ u :=
  string_ne_of_get2 (by rw [browser_get2, theme_get2]; decide)

theorem workdir_ne_browser (s u : String) :
    ("--working-directory=") ++ s ≠ ("--browser=") ++ u :=
  string_ne_of_get2 (by rw [workdir_get2, browser_get2]; decide)

theorem workdir_ne_nobrowser (s : String) :
    ("--working-directory=") ++ s ≠ ("--no-browser") :=
  string_ne_of_get2 (by rw [workdir_get2, nobrowser_get2]; decide)

theorem workdir_ne_theme (s u : String) :
    ("--working-directory=") ++ s ≠ ("--highlight-theme=") ++ u :=
  string_ne_of_get2 (by rw [workdir_get2, theme_get2]; decide)

theorem nobrowser_mem_clientFlags (b t : Option VimValue) (ob : Bool) :
    (("--no-browser") ∈ clientFlags b ob t) ↔ ob = false := by
  rcases b with _ | bv <;> rcases t with _ | tv <;> cases ob <;>
    simp_all [clientFlags, nobrowser_ne_browser, nobrowser_ne_theme]

theorem workdir_not_mem_clientFlags (b t : Option VimValue) (ob : Bool) (s : String) :
    (("--working-directory=") ++ s) ∉ clientFlags b ob t := by
  rcases b with _ | bv <;> rcases t with _ | tv <;> cases ob <;>
    simp_all [clientFlags, workdir_ne_browser, workdir_ne_nobrowser, workdir_ne_theme]

theorem browser_mem_clientFlags (b t : Option VimValue) (ob : Bool) (v : VimValue)
    (hb : b = some v) (hv : pyTruthy v = true) :
    (("--browser=") ++ pyFormat v) ∈ clientFlags b ob t := by
  subst hb
  simp [clientFlags, hv]

theorem browser_mem_clientFlags_truthy (b t : Option VimValue) (ob : Bool) (s : String)
    (h : (("--browser=") ++ s) ∈ clientFlags b ob t) : optTruthy b = true := by
  rcases b with _ | bv <;> rcases t with _ | tv <;> cases ob <;>
    simp_all [clientFlags, optTruthy, browser_ne_nobrowser, browser_ne_theme]

theorem theme_mem_clientFlags (b t : Option VimValue) (ob : Bool) (v : VimValue)
    (ht : t = some v) (hv : pyTruthy v = true) :
    (("--highlight-theme=") ++ pyFormat v) ∈ clientFlags b ob t := by
  subst ht
  simp [clientFlags, hv]

theorem theme_mem_clientFlags_truthy (b t : Option VimValue) (ob : Bool) (s : String)
    (h : (("--highlight-theme=") ++ s) ∈ clientFlags b ob t) : optTruthy t = true := by
  rcases b with _ | bv <;> rcases t with _ | tv <;> cases ob <;>
    simp_all [clientFlags, optTruthy, theme_ne_nobrowser, theme_ne_browser]

/-- C3 counterexample: under the spec's worked configuration (browser
`firefox`, auto-open disabled, theme `none`, an existing file on disk), the
argv the source builds is exactly the base invocation, the three flags, the
port and the buffer text — it contains no `--working-directory=<cwd>`
argument and does not end with the file path, refuting the claim. -/
theorem argv_working_directory_counterexample :
    (startClient envFirefox 8080 initialState).1.client_process =
      some [("cargo"), ("run"), ("--release"), ("--"), ("--browser=firefox"),
        ("--no-browser"), ("--highlight-theme=none"), ("8080"), ("# hello")] ∧
      ("--working-directory=/tmp/x") ∉
        clientArgs (some (.vstr ("firefox"))) false (some (.vstr ("none"))) 8080
          ("# hello") ∧
      (clientArgs (some (.vstr ("firefox"))) false (some (.vstr ("none"))) 8080
          ("# hello")).getLast? ≠ some ("/tmp/x/a.md") := by
  refine ⟨?_, ?_, ?_⟩ <;> decide

/-- C3 amended: the renderer argv is the base invocation `cargo run
--release --`, then `--browser=<name>` iff a truthy browser is configured,
`--no-browser` iff auto-open is disabled, `--highlight-theme=<name>` iff a
truthy theme is configured, and then exactly two trailing positional
arguments: the listening port and the initial buffer text.  No
`--working-directory` argument and no file path is ever appended, whether or
not the buffer's file exists on disk. -/
theorem argv_structure (b : Option VimValue) (ob : Bool) (t : Option VimValue)
    (port : Nat) (buf : String) :
    clientArgs b ob t port buf =
        [("cargo"), ("run"), ("--release"), ("--")] ++ clientFlags b ob t
          ++ [toString port, buf] ∧
      ((("--no-browser") ∈ clientFlags b ob t) ↔ ob = false) ∧
      (∀ v, b = some v → pyTruthy v = true →
        (("--browser=") ++ pyFormat v) ∈ clientFlags b ob t) ∧
      (∀ s, (("--browser=") ++ s) ∈ clientFlags b ob t → optTruthy b = true) ∧
      (∀ v, t = some v → pyTruthy v = true →
        (("--highlight-theme=") ++ pyFormat v) ∈ clientFlags b ob t) ∧
      (∀ s, (("--highlight-theme=") ++ s) ∈ clientFlags b ob t → optTruthy t = true) ∧
      (∀ s, (("--working-directory=") ++ s) ∉ clientFlags b ob t) ∧
      (clientArgs b ob t port buf).getLast? = some buf := by
  refine ⟨rfl, nobrowser_mem_clientFlags b t ob,
    fun v hb hv => browser_mem_clientFlags b t ob v hb hv,
    fun s h => browser_mem_clientFlags_truthy b t ob s h,
    fun v ht hv => theme_mem_clientFlags b t ob v ht hv,
    fun s h => theme_mem_clientFlags_truthy b t ob s h,
    fun s => workdir_not_mem_clientFlags b t ob s, ?_⟩
  rw [show clientArgs b ob t port buf =
      (([("cargo"), ("run"), ("--release"), ("--")] ++ clientFlags b ob t)
        ++ [toString port]) ++ [buf] from by simp [clientArgs]]
  exact List.getLast?_concat _

theorem argv_structure_witness :
    (("--browser=firefox") ∈
        clientFlags (some (.vstr ("firefox"))) false (some (.vstr ("none")))) ∧
      (("--no-browser") ∈
        clientFlags (some (.vstr ("firefox"))) false (some (.vstr ("none")))) ∧
      (clientArgs (some (.vstr ("firefox"))) false (some (.vstr ("none"))) 8080
          ("x")).getLast? = some ("x") := by
  have h := argv_structure (some (.vstr ("firefox"))) false (some (.vstr ("none")))
    8080 ("x")
  exact ⟨h.2.2.1 (.vstr ("firefox")) rfl rfl, (h.2.1).mpr rfl, h.2.2.2.2.2.2.2⟩

/-- C10: `--no-browser` is emitted iff the configured value fails the Python
test `value == 1` (with an unset variable defaulting to `1`): the flag is
absent exactly when the value is unset, the integer `1`, or the boolean
`True`; in particular the integer `2` and the string `"true"` disable
auto-open while `True` enables it. -/
theorem no_browser_flag_semantics (v b t : Option VimValue) :
    ((("--no-browser") ∈ clientFlags b (openBrowserFlag v) t) ↔
        ¬(v = none ∨ v = some (.vint 1) ∨ v = some (.vbool true))) ∧
      openBrowserFlag (some (.vint 2)) = false ∧
      openBrowserFlag (some (.vstr ("true"))) = false ∧
      openBrowserFlag (some (.vbool true)) = true ∧
      openBrowserFlag none = true := by
  refine ⟨?_, rfl, rfl, rfl, rfl⟩
  rw [nobrowser_mem_clientFlags]
  rcases v with _ | ⟨n⟩ | ⟨bb⟩ | ⟨ss⟩
  · simp [openBrowserFlag, pyEqOne]
  · simp only [openBrowserFlag, Option.getD_some, pyEqOne]
    constructor
    · intro h
      simp at h ⊢
      omega
    · intro h
      simp at h ⊢
      omega
  · cases bb <;> simp [openBrowserFlag, pyEqOne]
  · simp [openBrowserFlag, pyEqOne]

theorem char_toNat_lt (c : Char) : c.toNat < 1114112 := by
  have h : c.val.toNat < 55296 ∨ (57343 < c.val.toNat ∧ c.val.toNat < 1114112) := c.valid
  show c.val.toNat < 1114112
  rcases h with h | h
  · omega
  · omega

theorem utf8Decode_nil : utf8Decode [] = some [] := by
  rw [utf8Decode]

theorem utf8Decode_cons_some (b : Nat) (rest : List Nat) (p : Nat × List Nat)
    (h : utf8DecodeOne b rest = some p) :
    utf8Decode (b :: rest) = (utf8Decode p.2).map (fun cs => Char.ofNat p.1 :: cs) := by
  rw [utf8Decode]
  split
  all_goals simp_all

theorem utf8Decode_encodeNat (n : Nat) (hn : n < 1114112) (bs : List Nat) :
    utf8Decode (utf8EncodeNat n ++ bs) =
      (utf8Decode bs).map (fun cs => Char.ofNat n :: cs) := by
  by_cases h1 : n < 128
  · rw [show utf8EncodeNat n ++ bs = n :: bs from by
      unfold utf8EncodeNat; rw [if_pos h1]; rfl]
    have hd : utf8DecodeOne n bs = some (n, bs) := by
      unfold utf8DecodeOne; rw [if_pos h1]
    rw [utf8Decode_cons_some _ _ _ hd]
  · by_cases h2 : n < 2048
    · rw [show utf8EncodeNat n ++ bs = (192 + n / 64) :: (128 + n % 64) :: bs from by
        unfold utf8EncodeNat; rw [if_neg h1, if_pos h2]; rfl]
      have hd : utf8DecodeOne (192 + n / 64) ((128 + n % 64) :: bs) = some (n, bs) := by
        unfold utf8DecodeOne
        rw [if_neg (by omega : ¬ 192 + n / 64 < 128),
            if_neg (by omega : ¬ 192 + n / 64 < 192),
            if_pos (by omega : 192 + n / 64 < 224)]
        simp only []
        rw [if_pos (by simp only [Bool.and_eq_true, decide_eq_true_eq]; omega)]
        rw [show (192 + n / 64 - 192) * 64 + (128 + n % 64 - 128) = n from by omega]
      rw [utf8Decode_cons_some _ _ _ hd]
    · by_cases h3 : n < 65536
      · rw [show utf8EncodeNat n ++ bs =
            (224 + n / 4096) :: (128 + n / 64 % 64) :: (128 + n % 64) :: bs from by
          unfold utf8EncodeNat; rw [if_neg h1, if_neg h2, if_pos h3]; rfl]
        have hd : utf8DecodeOne (224 + n / 4096)
            ((128 + n / 64 % 64) :: (128 + n % 64) :: bs) = some (n, bs) := by
          unfold utf8DecodeOne
          rw [if_neg (by omega : ¬ 224 + n / 4096 < 128),
              if_neg (by omega : ¬ 224 + n / 4096 < 192),
              if_neg (by omega : ¬ 224 + n / 4096 < 224),
              if_pos (by omega : 224 + n / 4096 < 240)]
          simp only []
          rw [if_pos (by simp only [Bool.and_eq_true, decide_eq_true_eq]; omega)]
          rw [show (224 + n / 4096 - 224) * 4096 + (128 + n / 64 % 64 - 128) * 64 +
              (128 + n % 64 - 128) = n from by omega]
        rw [utf8Decode_cons_some _ _ _ hd]
      · rw [show utf8EncodeNat n ++ bs =
            (240 + n / 262144) :: (128 + n / 4096 % 64) :: (128 + n / 64 % 64) ::
              (128 + n % 64) :: bs from by
          unfold utf8EncodeNat; rw [if_neg h1, if_neg h2, if_neg h3]; rfl]
        have hd : utf8DecodeOne (240 + n / 262144)
            ((128 + n / 4096 % 64) :: (128 + n / 64 % 64) :: (128 + n % 64) :: bs) =
            some (n, bs) := by
          unfold utf8DecodeOne
          rw [if_neg (by omega : ¬ 240 + n / 262144 < 128),
              if_neg (by omega : ¬ 240 + n / 262144 < 192),
              if_neg (by omega : ¬ 240 + n / 262144 < 224),
              if_neg (by omega : ¬ 240 + n / 262144 < 240)]
          simp only []
          rw [if_pos (by simp only [Bool.and_eq_true, decide_eq_true_eq]; omega)]
          rw [show (240 + n / 262144 - 240) * 262144 + (128 + n / 4096 % 64 - 128) * 4096 +
              (128 + n / 64 % 64 - 128) * 64 + (128 + n % 64 - 128) = n from by omega]
        rw [utf8Decode_cons_some _ _ _ hd]

theorem utf8Decode_encodeChar (c : Char) (bs : List Nat) :
    utf8Decode (utf8EncodeChar c ++ bs) = (utf8Decode bs).map (fun cs => c :: cs) := by
  unfold utf8EncodeChar
  rw [utf8Decode_encodeNat c.toNat (char_toNat_lt c) bs]
  simp only [Char.ofNat_toNat]

theorem utf8Decode_encode_append (cs : List Char) (bs : List Nat) :
    utf8Decode (utf8Encode cs ++ bs) = (utf8Decode bs).map (fun l => cs ++ l) := by
  induction cs with
  | nil =>
    simp only [utf8Encode, List.foldr_nil, List.nil_append]
    cases utf8Decode bs <;> rfl
  | cons c cs ih =>
    rw [show utf8Encode (c :: cs) ++ bs = utf8EncodeChar c ++ (utf8Encode cs ++ bs) from by
      simp [utf8Encode]]
    rw [utf8Decode_encodeChar, ih]
    cases utf8Decode bs <;> rfl

theorem utf8Decode_strBytes (s : String) : utf8Decode (strBytes s) = some s.data := by
  have h := utf8Decode_encode_append s.data []
  rw [List.append_nil, utf8Decode_nil] at h
  rw [strBytes, h]
  simp

theorem readStr_packStr (s : String) (bytes rest : List Nat)
    (h : packStr s = some bytes) : readStr (bytes ++ rest) = some (s, rest) := by
  have hpay : readPayload (strBytes s).length (strBytes s ++ rest) = some (s, rest) := by
    unfold readPayload
    rw [if_pos (by simp [List.length_append])]
    rw [List.take_left, utf8Decode_strBytes]
    show some (String.mk s.data, (strBytes s ++ rest).drop (strBytes s).length) =
      some (s, rest)
    rw [List.drop_left]
  unfold packStr at h
  split_ifs at h with h1 h2 h3 h4
  · injection h with h; subst h
    show readStr ((160 + (strBytes s).length) :: (strBytes s ++ rest)) = some (s, rest)
    simp only [readStr]
    rw [if_pos (by simp only [Bool.and_eq_true, decide_eq_true_eq]; omega)]
    rw [show 160 + (strBytes s).length - 160 = (strBytes s).length from by omega]
    exact hpay
  · injection h with h; subst h
    show readStr (217 :: (strBytes s).length :: (strBytes s ++ rest)) = some (s, rest)
    simp only [readStr]
    rw [if_neg (by decide), if_pos (by decide)]
    exact hpay
  · injection h with h; subst h
    show readStr (218 :: (strBytes s).length / 256 :: (strBytes s).length % 256 ::
      (strBytes s ++ rest)) = some (s, rest)
    simp only [readStr]
    rw [if_neg (by decide), if_neg (by decide), if_pos (by decide)]
    show readPayload ((strBytes s).length / 256 * 256 + (strBytes s).length % 256)
      (strBytes s ++ rest) = some (s, rest)
    rw [show (strBytes s).length / 256 * 256 + (strBytes s).length % 256 =
      (strBytes s).length from by omega]
    exact hpay
  · injection h with h; subst h
    show readStr (219 :: (strBytes s).length / 16777216 ::
      (strBytes s).length / 65536 % 256 :: (strBytes s).length / 256 % 256 ::
      (strBytes s).length % 256 :: (strBytes s ++ rest)) = some (s, rest)
    simp only [readStr]
    rw [if_neg (by decide), if_neg (by decide), if_neg (by decide), if_pos (by decide)]
    show readPayload ((strBytes s).length / 16777216 * 16777216 +
      (strBytes s).length / 65536 % 256 * 65536 + (strBytes s).length / 256 % 256 * 256 +
      (strBytes s).length % 256) (strBytes s ++ rest) = some (s, rest)
    rw [show (strBytes s).length / 16777216 * 16777216 +
      (strBytes s).length / 65536 % 256 * 65536 + (strBytes s).length / 256 % 256 * 256 +
      (strBytes s).length % 256 = (strBytes s).length from by omega]
    exact hpay

theorem readItems_packItems (items : List String) :
    ∀ body rest, packItems items = some body →
      readItems items.length (body ++ rest) = some (items, rest) := by
  induction items with
  | nil =>
    intro body rest h
    simp only [packItems] at h
    injection h with h; subst h
    simp only [List.nil_append, List.length_nil]
    simp only [readItems]
  | cons s ss ih =>
    intro body rest h
    simp only [packItems] at h
    split at h
    · rename_i b c hb hc
      injection h with h; subst h
      simp only [List.length_cons, readItems]
      rw [List.append_assoc]
      rw [readStr_packStr s b (c ++ rest) hb]
      show (match readItems ss.length (c ++ rest) with
        | some (ss2, r2) => some (s :: ss2, r2)
        | none => none) = some (s :: ss, rest)
      rw [ih c rest hc]
    · exact absurd h (by simp)

theorem unpackb_packb (items : List String) (bs : List Nat)
    (h : packb items = some bs) : unpackb bs = some items := by
  simp only [packb] at h
  split at h
  swap
  · exact absurd h (by simp)
  rename_i hd body hhd hbody
  injection h with h; subst h
  have hread : readItems items.length body = some (items, []) := by
    have := readItems_packItems items body [] hbody
    rwa [List.append_nil] at this
  unfold arrayHeader at hhd
  split_ifs at hhd with g1 g2 g3
  · injection hhd with hhd; subst hhd
    show unpackb ((144 + items.length) :: body) = some items
    simp only [unpackb]
    rw [if_pos (by simp only [Bool.and_eq_true, decide_eq_true_eq]; omega)]
    rw [show 144 + items.length - 144 = items.length from by omega]
    rw [hread]
  · injection hhd with hhd; subst hhd
    show unpackb (220 :: items.length / 256 :: items.length % 256 :: body) = some items
    simp only [unpackb]
    rw [if_neg (by simp only [Bool.and_eq_true, decide_eq_true_eq]; omega),
      if_pos (by decide)]
    show (match readItems (items.length / 256 * 256 + items.length % 256) body with
      | some (ss, []) => some ss
      | _ => none) = some items
    rw [show items.length / 256 * 256 + items.length % 256 = items.length from by omega]
    rw [hread]
  · injection hhd with hhd; subst hhd
    show unpackb (221 :: items.length / 16777216 :: items.length / 65536 % 256 ::
      items.length / 256 % 256 :: items.length % 256 :: body) = some items
    simp only [unpackb]
    rw [if_neg (by simp only [Bool.and_eq_true, decide_eq_true_eq]; omega),
      if_neg (by decide), if_pos (by decide)]
    show (match readItems (items.length / 16777216 * 16777216 +
        items.length / 65536 % 256 * 65536 + items.length / 256 % 256 * 256 +
        items.length % 256) body with
      | some (ss, []) => some ss
      | _ => none) = some items
    rw [show items.length / 16777216 * 16777216 + items.length / 65536 % 256 * 65536 +
      items.length / 256 % 256 * 256 + items.length % 256 = items.length from by omega]
    rw [hread]

/-- C8: the codec round-trips: whenever `encode(method, args)` produces a
frame, decoding that frame recovers the method name and the argument list
exactly and in order, embedded newlines included. -/
theorem codec_roundtrip (method : String) (args : List String) (bs : List Nat)
    (h : encode method args = some bs) : decode bs = some (method, args) := by
  unfold encode at h
  unfold decode
  rw [unpackb_packb (method :: args) bs h]

theorem codec_roundtrip_witness :
    decode [146, 169, 115, 101, 110, 100, 95, 100, 97, 116, 97,
      171, 104, 101, 108, 108, 111, 10, 119, 111, 114, 108, 100] =
      some (("send_data"), [("hello\nworld")]) :=
  codec_roundtrip ("send_data") [("hello\nworld")]
    [146, 169, 115, 101, 110, 100, 95, 100, 97, 116, 97,
      171, 104, 101, 108, 108, 111, 10, 119, 111, 114, 108, 100] (by decide)

/-- C9: the synchronous `ComposerUpdate` command and the `CursorHold`-family
autocommand run the very same operation, `send_current_buffer`, so on every
session state they produce the same write or the same silent drop; the
command is registered with `sync=True` (the editor waits for it to finish)
while the autocommand is asynchronous. -/
theorem forced_update_matches_autocmd (env : VimEnv) (port : Nat) (s : PluginState) :
    handleEvent env port EditorEvent.cmdComposerUpdate s = sendCurrentBuffer env s ∧
      handleEvent env port EditorEvent.bufferTick s = sendCurrentBuffer env s ∧
      (Registration.mk ("command") ("ComposerUpdate") true) ∈ registrations ∧
      (Registration.mk ("autocmd") ("CursorHold,CursorHoldI,CursorMoved,CursorMovedI") false)
        ∈ registrations := by
  refine ⟨rfl, rfl, ?_, ?_⟩ <;> simp [registrations]

end MarkdownComposer
